import Mathlib

/-!
Shallow embedding of ChampuMusic/platforms/Youtube.py (class YouTubeAPI).

Strings from the Python side are modelled as List Char where character-level
scanning matters, and as String where the value is carried unexamined.  Network and
process effects (the Google API client, yt-dlp) are modelled by passing the
outcome of the external call as an explicit argument: an Except value stands
for the result of request.execute (error = googleapiclient HttpError), a
function argument stands for the paginated endpoint, and a record of the
filesystem stands for the downloads directory.
-/

/-! ## Regex helpers: the id character class [0-9A-Za-z_-] -/

def isIdChar (c : Char) : Bool :=
  c.isAlphanum || c = '_' || c = '-'

def idCheck (l : List Char) : Bool :=
  l.length = 11 && l.all isIdChar

/-- One attempt of the pattern (?:v=|\/)([0-9A-Za-z_-]\x7b11\x7d).* at the
current position: try the alternative v= first, then /, each followed by
exactly 11 id-class characters; the trailing .* is unconstrained. -/
def matchAt (s : List Char) : Option (List Char) :=
  if s.take 2 = ['v', '='] && idCheck ((s.drop 2).take 11) then
    some ((s.drop 2).take 11)
  else if s.take 1 = ['/'] && idCheck ((s.drop 1).take 11) then
    some ((s.drop 1).take 11)
  else none

/-- re.search: try the pattern at each position, leftmost first. -/
def reSearch : List Char → Option (List Char)
  | [] => none
  | c :: rest =>
    match matchAt (c :: rest) with
    | some r => some r
    | none => reSearch rest

/-- Youtube.py lines 59-64, helper _extract_id_from_url: return the capture
group of the regex search when it matches, else the input unchanged. -/
def extract_id_chars (url : List Char) : List Char :=
  match reSearch url with
  | some r => r
  | none => url

def extract_id_from_url (url : String) : String :=
  String.mk (extract_id_chars url.data)

/-! ## Duration formatting (details, lines 88-94) -/

/-- Python format spec 02d on a natural number. -/
def pad2 (n : Nat) : String :=
  if n < 10 then "0" ++ toString n else toString n

/-- Youtube.py lines 88-94: m, s = divmod(duration_sec, 60);
h, m = divmod(m, 60); HH:MM:SS when h is positive, else MM:SS. -/
def duration_fmt (duration_sec : Nat) : String :=
  let m := duration_sec / 60
  let s := duration_sec % 60
  let h := m / 60
  let m2 := m % 60
  if h > 0 then pad2 h ++ ":" ++ pad2 m2 ++ ":" ++ pad2 s
  else pad2 m2 ++ ":" ++ pad2 s

/-! ## Python substring search and str.split (non-empty separator) -/

/-- Index of the first occurrence of sep in s, none when absent.
Python substring search; (findSub sep s).isSome models sep in s. -/
def findSub (sep : List Char) : List Char → Option Nat
  | [] => if sep.isPrefixOf ([] : List Char) then some 0 else none
  | c :: rest =>
    if sep.isPrefixOf (c :: rest) then some 0
    else (findSub sep rest).map (· + 1)

/-- Python str.split with a non-empty separator, fuelled structurally; each
step removes the text up to and including the first occurrence of sep. -/
def pySplitFuel (sep : List Char) : Nat → List Char → List (List Char)
  | 0, s => [s]
  | fuel + 1, s =>
    match findSub sep s with
    | none => [s]
    | some k => s.take k :: pySplitFuel sep fuel (s.drop (k + sep.length))

/-- Python s.split(sep) for non-empty sep; fuel s.length + 1 always
suffices because every step strictly shortens the remainder. -/
def pySplit (sep s : List Char) : List (List Char) :=
  pySplitFuel sep (s.length + 1) s

/-! ## Playlist id extraction and pagination (playlist, lines 154-185) -/

def list_marker : List Char := "list=".data

/-- Youtube.py lines 156-158: playlist_id = link, and when "list=" occurs in
link, link.split("list=")[1].split("&")[0]. -/
def playlist_id_of (link : List Char) : List Char :=
  if (findSub list_marker link).isSome then
    (pySplit ['&'] ((pySplit list_marker link).getD 1 [])).headD []
  else link

/-- One page of the playlistItems endpoint: the videoId of each returned
item, plus the optional continuation token. -/
structure PlaylistPage where
  items : List String
  nextPageToken : Option String

/-- Youtube.py lines 163-181: while len(result) < limit, request a page of
size min(limit - len(result), 50) at the current token, append every item,
stop when no nextPageToken is returned.  The endpoint is passed as a
function from (pageToken, maxResults) to the response page.  The extra
Bool in the result records whether the loop ended because no continuation
token was returned (true) or because the limit was reached (false); the
Python function returns only the list.  Fuel bounds the number of requests;
none means the fuel ran out mid-loop. -/
def playlist_loop (fetch : Option String → Nat → PlaylistPage) (limit : Nat) :
    Nat → List String → Option String → Option (List String × Bool)
  | 0, _, _ => none
  | fuel + 1, result, tok =>
    if result.length < limit then
      let response := fetch tok (min (limit - result.length) 50)
      let result2 := result ++ response.items
      match response.nextPageToken with
      | none => some (result2, true)
      | some t => playlist_loop fetch limit fuel result2 (some t)
    else some (result, false)

/-! ## Video details (details, lines 66-104) -/

/-- The snippet.thumbnails dict: entries looked up by the code, each the url
field of the corresponding thumbnail object when the key is present. -/
structure Thumbnails where
  high : Option String
  default : Option String

/-- One element of response[items]: the fields the code reads. -/
structure VideoItem where
  title : String
  duration : String
  thumbnails : Thumbnails

structure VideosResponse where
  items : List VideoItem

/-- Youtube.py lines 66-104.  parse_duration models
int(isodate.parse_duration(x).total_seconds()); execute is the outcome of
request.execute (error = HttpError, which the code catches and maps to
None).  The Except in the result separates an uncaught Python exception
(the TypeError from subscripting a missing thumbnail) from a returned
value; ok none is the Python return None. -/
def details (parse_duration : String → Nat)
    (execute : Except String VideosResponse)
    (link : String) (videoid : Bool) :
    Except String (Option (String × String × Nat × String × String)) :=
  let vid_id := if videoid then link else extract_id_from_url link
  match execute with
  | .error _ => .ok none
  | .ok response =>
    match response.items with
    | [] => .ok none
    | item :: _ =>
      let duration_sec := parse_duration item.duration
      let duration_disp := duration_fmt duration_sec
      match item.thumbnails.high with
      | some thumbnail => .ok (some (item.title, duration_disp, duration_sec, thumbnail, vid_id))
      | none =>
        match item.thumbnails.default with
        | some thumbnail => .ok (some (item.title, duration_disp, duration_sec, thumbnail, vid_id))
        | none => .error "TypeError"

/-! ## Search slider (slider, lines 200-229) -/

/-- One element of the search response items: the code reads only
item[id][videoId]. -/
structure SearchItem where
  videoId : String

structure SearchResponse where
  items : List SearchItem

/-- Youtube.py lines 200-229: search for up to 10 results, bounds-check
query_type, then fetch full details of the selected videoId.  search_exec
is the outcome of the search request; details_exec_of gives the outcome of
the videos().list request for each id (the second lookup). -/
def slider (search_exec : Except String SearchResponse)
    (details_exec_of : String → Except String VideosResponse)
    (parse_duration : String → Nat) (query_type : Nat) :
    Except String (Option (String × String × Nat × String × String)) :=
  match search_exec with
  | .error _ => .ok none
  | .ok response =>
    let items := response.items
    if items.isEmpty || items.length ≤ query_type then .ok none
    else
      let target_item := items.getD query_type ⟨""⟩
      let vid_id := target_item.videoId
      details parse_duration (details_exec_of vid_id) vid_id true

/-! ## Stream URL extraction (video, lines 127-152) -/

/-- Youtube.py lines 149-152: the result shaping after proc.communicate().
stdout_s and stderr_s are the decoded captured streams; if stdout is
truthy return (1, stdout.decode().split(by newline)[0]) else
(0, stderr.decode()). -/
def video (stdout_s stderr_s : List Char) : Nat × List Char :=
  if stdout_s ≠ [] then (1, (pySplit ['\n'] stdout_s).headD [])
  else (0, stderr_s)

/-! ## exists (lines 28-33) -/

def base_url : List Char := "https://www.youtube.com/watch?v=".data

/-- re.search of (?:youtube\.com|youtu\.be): does either alternative occur
as a substring. -/
def host_regex_search (link : List Char) : Bool :=
  (findSub ("youtube.com".data) link).isSome || (findSub ("youtu.be".data) link).isSome

/-- Youtube.py lines 28-33: when videoid is truthy prepend the watch base,
then test the host regex. -/
def yt_exists (link : List Char) (videoid : Bool) : Bool :=
  host_regex_search (if videoid then base_url ++ link else link)

/-! ## Message URL resolution (url, lines 35-57) -/

inductive EntityType where
  | URL
  | TEXT_LINK
  | other
deriving DecidableEq

/-- A pyrogram MessageEntity: the fields the code reads. -/
structure MessageEntity where
  type : EntityType
  offset : Nat
  length : Nat
  url : Option String
deriving DecidableEq

/-- The fields of a pyrogram Message that url reads (without the reply). -/
structure MsgCore where
  text : Option String
  caption : Option String
  entities : Option (List MessageEntity)
  caption_entities : Option (List MessageEntity)

/-- A message together with its optional reply parent; the code never looks
past one reply level. -/
structure Msg where
  core : MsgCore
  reply_to_message : Option MsgCore

/-- Python truthiness of the current offset value: None and 0 are falsy. -/
def offsetTruthy : Option Nat → Bool
  | some (_ + 1) => true
  | _ => false

/-- Python truthiness of an entity list attribute: None and [] are falsy. -/
def entitiesTruthy : Option (List MessageEntity) → Bool
  | some (_ :: _) => true
  | _ => false

/-- Python x or y on optional strings: None and the empty string are falsy. -/
def pyOrStr : Option String → Option String → Option String
  | some s, b => if s = "" then b else some s
  | none, b => b

/-- The inner for with break: the first entity of URL type. -/
def firstURL : List MessageEntity → Option MessageEntity
  | [] => none
  | e :: rest => if e.type = EntityType.URL then some e else firstURL rest

/-- The inner for over caption_entities: the first TEXT_LINK entity. -/
def firstTextLink : List MessageEntity → Option MessageEntity
  | [] => none
  | e :: rest => if e.type = EntityType.TEXT_LINK then some e else firstTextLink rest

/-- How the for-loop of url ends: an early return of entity.url, or falling
through with the final text, offset and length variables. -/
inductive UrlScan where
  | early (u : Option String)
  | fall (text : Option String) (offset : Option Nat) (len : Option Nat)

/-- Youtube.py lines 42-54: the loop over [message_1] or
[message_1, reply].  State variables text, offset, length thread through;
if offset is truthy the loop breaks before processing the next message. -/
def url_loop : List MsgCore → Option String → Option Nat → Option Nat → UrlScan
  | [], text, offset, len => .fall text offset len
  | m :: rest, text, offset, len =>
    if offsetTruthy offset then .fall text offset len
    else if entitiesTruthy m.entities then
      match firstURL (m.entities.getD []) with
      | some e => url_loop rest (pyOrStr m.text m.caption) (some e.offset) (some e.length)
      | none => url_loop rest text offset len
    else if entitiesTruthy m.caption_entities then
      match firstTextLink (m.caption_entities.getD []) with
      | some e => .early e.url
      | none => url_loop rest text offset len
    else url_loop rest text offset len

/-- Python t[off : off + len] on a string with natural indices. -/
def pySlice (t : String) (off len : Nat) : String :=
  String.mk ((t.data.drop off).take len)

/-- Youtube.py lines 54-57: after the loop, early return of entity.url, or
return None when offset is still None, else the slice text[offset :
offset + length].  The Except separates the uncaught TypeError of slicing a
None text from a normal return; ok none is return None. -/
def urlFinish : UrlScan → Except String (Option String)
  | .early u => .ok u
  | .fall text offset len =>
    match offset with
    | none => .ok none
    | some off =>
      match text, len with
      | some t, some l => .ok (some (pySlice t off l))
      | _, _ => .error "TypeError"

/-- Youtube.py lines 35-57: build the message list (the message plus its
reply parent when present), run the loop, finish. -/
def url (message_1 : Msg) : Except String (Option String) :=
  urlFinish (url_loop
    (message_1.core ::
      (match message_1.reply_to_message with
       | some r => [r]
       | none => []))
    (some "") none none)

/-! ## download (lines 238-301) -/

/-- The id and ext fields of the info dict that yt-dlp extract_info
returns for a link. -/
structure DlInfo where
  id : String
  ext : String

/-- The downloads directory, as the set of file paths that exist. -/
structure FileSystem where
  files : List String

/-- os.path.join("downloads", id + "." + ext) with the outtmpl of the code. -/
def dl_path (info : DlInfo) : String :=
  "downloads/" ++ info.id ++ "." ++ info.ext

/-- Youtube.py lines 265-277 (audio_dl): compute xyz from extract_info; if
the path exists return it, else run x.download and return it.  The result
carries the path, the filesystem afterwards, and whether x.download ran. -/
def audio_dl (extract_info : String → DlInfo) (link : String) (fs : FileSystem) :
    String × FileSystem × Bool :=
  let info := extract_info link
  let xyz := dl_path info
  if xyz ∈ fs.files then (xyz, fs, false)
  else (xyz, ⟨xyz :: fs.files⟩, true)

/-- Youtube.py lines 279-291 (video_dl): identical path logic to audio_dl;
the two helpers differ only in the yt-dlp format options. -/
def video_dl (extract_info : String → DlInfo) (link : String) (fs : FileSystem) :
    String × FileSystem × Bool :=
  let info := extract_info link
  let xyz := dl_path info
  if xyz ∈ fs.files then (xyz, fs, false)
  else (xyz, ⟨xyz :: fs.files⟩, true)

/-- Youtube.py lines 295-301: dispatch on the video flag and wrap the
downloaded path as (path, True).  Result: ((path, true), fs after, whether
a fresh external download ran). -/
def download (extract_info : String → DlInfo) (video_flag : Bool) (link : String)
    (fs : FileSystem) : (String × Bool) × FileSystem × Bool :=
  if video_flag then
    let r := video_dl extract_info link fs
    ((r.1, true), r.2.1, r.2.2)
  else
    let r := audio_dl extract_info link fs
    ((r.1, true), r.2.1, r.2.2)

/-- Modelled from the claim wording for the playlist id: the substring of the
input after the first list= marker and before the next ampersand (to the end
when no ampersand follows), the input itself when list= is absent. -/
def c7_claim_extract (link : List Char) : List Char :=
  if (findSub list_marker link).isSome then
    (link.drop (((findSub list_marker link).getD 0) + list_marker.length)).takeWhile
      (fun c => c != '&')
  else link

/-- A message whose scan step leaves the loop state unchanged and returns
nothing: its entity list (when truthy) has no URL entity, and its caption
entity list (when reached and truthy) has no TEXT_LINK entity. -/
def msgContributesNothing (m : MsgCore) : Prop :=
  (entitiesTruthy m.entities = true → firstURL (m.entities.getD []) = none) ∧
  (entitiesTruthy m.entities = false → entitiesTruthy m.caption_entities = true →
    firstTextLink (m.caption_entities.getD []) = none)

/-! ## Helper lemmas -/

theorem takeWhile_eq_self_of_findSub_none (c : Char) :
    ∀ u : List Char, findSub [c] u = none → u.takeWhile (fun x => x != c) = u := by
  intro u
  induction u with
  | nil => intro _; rfl
  | cons a t ih =>
    intro h
    simp only [findSub, List.isPrefixOf] at h
    by_cases hca : c = a
    · simp [hca] at h
    · simp [beq_iff_eq, hca] at h
      have hac : (a != c) = true := by
        rw [bne_iff_ne]
        exact fun he => hca he.symm
      simp [List.takeWhile, hac, ih h]

theorem take_eq_takeWhile_of_findSub_some (c : Char) :
    ∀ (u : List Char) (k : Nat), findSub [c] u = some k →
      u.take k = u.takeWhile (fun x => x != c) := by
  intro u
  induction u with
  | nil => intro k h; simp [findSub] at h
  | cons a t ih =>
    intro k h
    simp only [findSub, List.isPrefixOf] at h
    by_cases hca : c = a
    · simp [beq_iff_eq, hca] at h
      subst h
      have hac : (a != c) = false := by
        simp [bne, beq_iff_eq, hca.symm]
      simp [List.takeWhile, hac]
    · simp [beq_iff_eq, hca] at h
      obtain ⟨k0, hk0, hk⟩ := h
      have hac : (a != c) = true := by
        rw [bne_iff_ne]
        exact fun he => hca he.symm
      subst hk
      simp [List.take, List.takeWhile, hac, ih k0 hk0]

theorem headD_pySplit_single (c : Char) (u : List Char) :
    (pySplit [c] u).headD [] = u.takeWhile (fun x => x != c) := by
  unfold pySplit
  cases h : findSub [c] u with
  | none => simp [pySplitFuel, h, takeWhile_eq_self_of_findSub_none c u h]
  | some k => simp [pySplitFuel, h, take_eq_takeWhile_of_findSub_some c u k h]

theorem findSub_isSome_append_left (sep : List Char) :
    ∀ (pre t : List Char), (findSub sep t).isSome → (findSub sep (pre ++ t)).isSome := by
  intro pre
  induction pre with
  | nil => intro t h; simpa using h
  | cons c pre2 ih =>
    intro t h
    simp only [List.cons_append, findSub, List.append_eq]
    by_cases hp : sep.isPrefixOf (c :: (pre2 ++ t)) = true
    · rw [if_pos hp]
      rfl
    · rw [if_neg hp]
      simpa using ih t h

theorem findSub_isSome_self_append (sep : List Char) (t : List Char) (h : sep ≠ []) :
    (findSub sep (sep ++ t)).isSome := by
  cases sep with
  | nil => exact absurd rfl h
  | cons c s2 =>
    simp only [List.cons_append, findSub, List.append_eq]
    have hp : (c :: s2).isPrefixOf (c :: (s2 ++ t)) = true := by
      rw [List.isPrefixOf_iff_prefix]
      exact List.prefix_append (c :: s2) t
    rw [if_pos hp]
    rfl

theorem eq_cons_cons_of_take_two {s : List Char} {a b : Char}
    (h : s.take 2 = [a, b]) : s = a :: b :: s.drop 2 := by
  have h2 := List.take_append_drop 2 s
  rw [h] at h2
  exact h2.symm

theorem eq_cons_of_take_one {s : List Char} {a : Char}
    (h : s.take 1 = [a]) : s = a :: s.drop 1 := by
  have h2 := List.take_append_drop 1 s
  rw [h] at h2
  exact h2.symm

theorem matchAt_sound {s r : List Char} (h : matchAt s = some r) :
    idCheck r = true ∧
      ∃ post, s = 'v' :: '=' :: (r ++ post) ∨ s = '/' :: (r ++ post) := by
  unfold matchAt at h
  split_ifs at h with h1 h2
  · rw [Bool.and_eq_true, decide_eq_true_eq] at h1
    obtain ⟨htake, hid⟩ := h1
    obtain rfl : (s.drop 2).take 11 = r := by injection h
    refine ⟨hid, (s.drop 2).drop 11, Or.inl ?_⟩
    rw [List.take_append_drop]
    exact eq_cons_cons_of_take_two htake
  · rw [Bool.and_eq_true, decide_eq_true_eq] at h2
    obtain ⟨htake, hid⟩ := h2
    obtain rfl : (s.drop 1).take 11 = r := by injection h
    refine ⟨hid, (s.drop 1).drop 11, Or.inr ?_⟩
    rw [List.take_append_drop]
    exact eq_cons_of_take_one htake

theorem reSearch_sound :
    ∀ {s r : List Char}, reSearch s = some r →
      idCheck r = true ∧
        ∃ pre post, s = pre ++ 'v' :: '=' :: (r ++ post) ∨ s = pre ++ '/' :: (r ++ post) := by
  intro s
  induction s with
  | nil => intro r h; simp [reSearch] at h
  | cons c t ih =>
    intro r h
    rw [reSearch] at h
    revert h
    cases hm : matchAt (c :: t) with
    | some r0 =>
      intro h
      obtain rfl : r0 = r := by injection h
      obtain ⟨hid, post, hor⟩ := matchAt_sound hm
      exact ⟨hid, [], post, by simpa using hor⟩
    | none =>
      intro h
      obtain ⟨hid, pre, post, hor⟩ := ih h
      refine ⟨hid, c :: pre, post, ?_⟩
      cases hor with
      | inl h0 => exact Or.inl (by rw [List.cons_append, ← h0])
      | inr h0 => exact Or.inr (by rw [List.cons_append, ← h0])

theorem matchAt_some_v {r : List Char} (post : List Char) (hid : idCheck r = true) :
    matchAt ('v' :: '=' :: (r ++ post)) = some r := by
  have hlen : r.length = 11 := by
    have h2 : r.length = 11 ∧ r.all isIdChar = true := by simpa [idCheck] using hid
    exact h2.1
  unfold matchAt
  rw [if_pos]
  · simp [List.take_left' hlen]
  · simp [List.take_left' hlen, hid]

theorem matchAt_some_slash {r : List Char} (post : List Char) (hid : idCheck r = true) :
    matchAt ('/' :: (r ++ post)) = some r := by
  have hlen : r.length = 11 := by
    have h2 : r.length = 11 ∧ r.all isIdChar = true := by simpa [idCheck] using hid
    exact h2.1
  unfold matchAt
  rw [if_neg, if_pos]
  · simp [List.take_left' hlen]
  · simp [List.take_left' hlen, hid]
  · intro hcond
    rw [Bool.and_eq_true, decide_eq_true_eq] at hcond
    have hcontra := congrArg (fun l => l.headD ' ') hcond.1
    simp at hcontra

theorem reSearch_isSome_of_matchAt :
    ∀ (pre s : List Char), (matchAt s).isSome → (reSearch (pre ++ s)).isSome := by
  intro pre
  induction pre with
  | nil =>
    intro s h
    cases s with
    | nil => simp [matchAt] at h
    | cons c t =>
      rw [List.nil_append, reSearch]
      cases hm : matchAt (c :: t) with
      | some r => rfl
      | none => rw [hm] at h; simp at h
  | cons c pre2 ih =>
    intro s h
    rw [List.cons_append, reSearch]
    cases hm : matchAt (c :: (pre2 ++ s)) with
    | some r => rfl
    | none => exact ih s h

/-- C1: for every URL string containing v= followed by an 11-character id, or a
bare 11-character id-class segment after a slash, extract_id_chars returns the
captured 11-character id (the leftmost match of the fixed pattern), and for
every string in which the pattern finds no match it returns the input
unchanged. -/
theorem extract_id_spec (s : List Char) :
    ((∃ pre r post, r.length = 11 ∧ r.all isIdChar = true ∧
        (s = pre ++ 'v' :: '=' :: (r ++ post) ∨ s = pre ++ '/' :: (r ++ post))) →
      ∃ r2, extract_id_chars s = r2 ∧ r2.length = 11 ∧ r2.all isIdChar = true ∧
        ∃ pre2 post2,
          s = pre2 ++ 'v' :: '=' :: (r2 ++ post2) ∨ s = pre2 ++ '/' :: (r2 ++ post2)) ∧
    ((¬ ∃ pre r post, r.length = 11 ∧ r.all isIdChar = true ∧
        (s = pre ++ 'v' :: '=' :: (r ++ post) ∨ s = pre ++ '/' :: (r ++ post))) →
      extract_id_chars s = s) := by
  constructor
  · rintro ⟨pre, r, post, h11, hall, hor⟩
    have hid : idCheck r = true := by simp [idCheck, h11, hall]
    have hsome : (reSearch s).isSome := by
      cases hor with
      | inl h0 =>
        rw [h0]
        exact reSearch_isSome_of_matchAt pre _ (by rw [matchAt_some_v post hid]; rfl)
      | inr h0 =>
        rw [h0]
        exact reSearch_isSome_of_matchAt pre _ (by rw [matchAt_some_slash post hid]; rfl)
    obtain ⟨r2, hr2⟩ := Option.isSome_iff_exists.mp hsome
    obtain ⟨hid2, pre2, post2, hor2⟩ := reSearch_sound hr2
    have h1 : r2.length = 11 ∧ r2.all isIdChar = true := by simpa [idCheck] using hid2
    exact ⟨r2, by simp [extract_id_chars, hr2], h1.1, h1.2, pre2, post2, hor2⟩
  · intro hn
    cases hr : reSearch s with
    | none => simp [extract_id_chars, hr]
    | some r2 =>
      obtain ⟨hid2, pre2, post2, hor2⟩ := reSearch_sound hr
      have h1 : r2.length = 11 ∧ r2.all isIdChar = true := by simpa [idCheck] using hid2
      exact absurd ⟨pre2, r2, post2, h1.1, h1.2, hor2⟩ hn

/-- Witness for extract_id_spec at two concrete inputs: a short youtu.be link
and a string the pattern cannot match. -/
theorem extract_id_spec_witness :
    (∃ r2, extract_id_chars ("https://youtu.be/dQw4w9WgXcQ".data) = r2 ∧
      r2.length = 11 ∧ r2.all isIdChar = true ∧
      ∃ pre2 post2,
        "https://youtu.be/dQw4w9WgXcQ".data = pre2 ++ 'v' :: '=' :: (r2 ++ post2) ∨
        "https://youtu.be/dQw4w9WgXcQ".data = pre2 ++ '/' :: (r2 ++ post2)) ∧
    extract_id_chars ("ab".data) = "ab".data := by
  constructor
  · exact (extract_id_spec _).1
      ⟨"https://youtu.be".data, "dQw4w9WgXcQ".data, [], by decide, by decide,
        Or.inr (by decide)⟩
  · refine (extract_id_spec _).2 ?_
    rintro ⟨pre, r, post, h11, -, hor⟩
    have hlen : ("ab".data).length = 2 := by decide
    cases hor with
    | inl h0 =>
      have hc := congrArg List.length h0
      rw [hlen] at hc
      simp [List.length_append, h11] at hc
      omega
    | inr h0 =>
      have hc := congrArg List.length h0
      rw [hlen] at hc
      simp [List.length_append, h11] at hc
      omega

/-- C2: the duration formatter converts seconds to HH:MM:SS when the hour
component is nonzero and MM:SS otherwise, each component zero-padded to two
digits; 45 gives 00:45, 125 gives 02:05, 3661 gives 01:01:01. -/
theorem duration_fmt_spec :
    duration_fmt 45 = "00:45" ∧ duration_fmt 125 = "02:05" ∧
    duration_fmt 3661 = "01:01:01" ∧
    (∀ n : Nat, n / 3600 ≠ 0 →
      duration_fmt n = pad2 (n / 3600) ++ ":" ++ pad2 (n % 3600 / 60) ++ ":" ++ pad2 (n % 60)) ∧
    (∀ n : Nat, n / 3600 = 0 →
      duration_fmt n = pad2 (n % 3600 / 60) ++ ":" ++ pad2 (n % 60)) ∧
    (∀ k : Nat, k < 100 → (pad2 k).length = 2) := by
  refine ⟨by decide, by decide, by decide, ?_, ?_, by decide⟩
  · intro n h
    have h1 : n / 60 / 60 = n / 3600 := by omega
    have h2 : n / 60 % 60 = n % 3600 / 60 := by omega
    simp only [duration_fmt]
    rw [h1, h2, if_pos (Nat.pos_of_ne_zero h)]
  · intro n h
    have h1 : n / 60 / 60 = n / 3600 := by omega
    have h2 : n / 60 % 60 = n % 3600 / 60 := by omega
    simp only [duration_fmt]
    rw [h1, h2, if_neg (by omega)]

/-- Witness for duration_fmt_spec: the two shape clauses applied at 3661 and
125, and the padding clause at 59. -/
theorem duration_fmt_spec_witness :
    duration_fmt 3661 = pad2 (3661 / 3600) ++ ":" ++ pad2 (3661 % 3600 / 60) ++ ":" ++ pad2 (3661 % 60) ∧
    duration_fmt 125 = pad2 (125 % 3600 / 60) ++ ":" ++ pad2 (125 % 60) ∧
    (pad2 (59 : Nat)).length = 2 :=
  ⟨duration_fmt_spec.2.2.2.1 3661 (by decide),
   duration_fmt_spec.2.2.2.2.1 125 (by decide),
   duration_fmt_spec.2.2.2.2.2 59 (by decide)⟩

theorem playlist_loop_invariant (fetch : Option String → Nat → PlaylistPage) (limit : Nat)
    (hfetch : ∀ t n, (fetch t n).items.length ≤ n) :
    ∀ (fuel : Nat) (acc : List String) (tok : Option String) (res : List String) (flag : Bool),
      acc.length ≤ limit →
      playlist_loop fetch limit fuel acc tok = some (res, flag) →
      res.length ≤ limit ∧ (res.length < limit → flag = true) := by
  intro fuel
  induction fuel with
  | zero => intro acc tok res flag _ h; simp [playlist_loop] at h
  | succ fuel ih =>
    intro acc tok res flag hacc h
    rw [playlist_loop] at h
    by_cases hlt : acc.length < limit
    · rw [if_pos hlt] at h
      have hlen : (acc ++ (fetch tok (min (limit - acc.length) 50)).items).length ≤ limit := by
        rw [List.length_append]
        have := hfetch tok (min (limit - acc.length) 50)
        omega
      have h2 : (match (fetch tok (min (limit - acc.length) 50)).nextPageToken with
          | none => some (acc ++ (fetch tok (min (limit - acc.length) 50)).items, true)
          | some t => playlist_loop fetch limit fuel
              (acc ++ (fetch tok (min (limit - acc.length) 50)).items) (some t)) =
          some (res, flag) := h
      cases htok : (fetch tok (min (limit - acc.length) 50)).nextPageToken with
      | none =>
        rw [htok] at h2
        have h3 := Option.some.inj h2
        have hres := congrArg Prod.fst h3
        have hflag := congrArg Prod.snd h3
        simp only at hres hflag
        rw [← hres, ← hflag]
        exact ⟨hlen, fun _ => rfl⟩
      | some t =>
        rw [htok] at h2
        exact ih _ _ res flag hlen h2
    · rw [if_neg hlt] at h
      obtain ⟨hres, hflag⟩ : acc = res ∧ false = flag := by
        have := Option.some.inj h
        exact ⟨congrArg Prod.fst this, congrArg Prod.snd this⟩
      rw [← hres]
      exact ⟨hacc, fun hf => absurd hf (by omega)⟩

/-- C3: for every limit and every behaviour of the paginated endpoint that
honours the requested page size, the playlist loop collects at most limit
video ids, and it ends with fewer than limit only when a response carried no
continuation token (the Bool flag of the model records that exit). -/
theorem playlist_limit_spec (fetch : Option String → Nat → PlaylistPage) (limit fuel : Nat)
    (res : List String) (flag : Bool)
    (hfetch : ∀ t n, (fetch t n).items.length ≤ n)
    (hrun : playlist_loop fetch limit fuel [] none = some (res, flag)) :
    res.length ≤ limit ∧ (res.length < limit → flag = true) :=
  playlist_loop_invariant fetch limit hfetch fuel [] none res flag (by simp) hrun

/-- Witness for playlist_limit_spec: an endpoint that always fills the
requested page size and never returns a token. -/
theorem playlist_limit_spec_witness :
    playlist_loop (fun _ n => ⟨List.replicate n "x", none⟩) 3 4 [] none =
      some (["x", "x", "x"], true) ∧
    (["x", "x", "x"] : List String).length ≤ 3 := by
  refine ⟨by decide, ?_⟩
  exact (playlist_limit_spec (fun _ n => ⟨List.replicate n "x", none⟩) 3 4 ["x", "x", "x"] true
    (fun t n => by simp) (by decide)).1

/-- C6: details returns None when the response has zero items, and catches
every HttpError from the API call, returning None rather than letting the
exception escape. -/
theorem details_error_spec :
    (∀ (parse_duration : String → Nat) (link : String) (videoid : Bool) (e : String),
      details parse_duration (Except.error e) link videoid = Except.ok none) ∧
    (∀ (parse_duration : String → Nat) (resp : VideosResponse) (link : String) (videoid : Bool),
      resp.items = [] →
      details parse_duration (Except.ok resp) link videoid = Except.ok none) := by
  constructor
  · intro parse_duration link videoid e
    rfl
  · intro parse_duration resp link videoid h
    simp [details, h]

/-- Witness for details_error_spec: an empty response yields None. -/
theorem details_error_spec_witness :
    details (fun _ => 0) (Except.ok ⟨[]⟩) "dQw4w9WgXcQ" true = Except.ok none :=
  details_error_spec.2 (fun _ => 0) ⟨[]⟩ "dQw4w9WgXcQ" true rfl

/-- C4: slider returns None when the index is at least the number of search
results (in particular with zero results), and with an in-range index it
returns exactly the result of the second details lookup keyed by the selected
result videoId. -/
theorem slider_spec (resp : SearchResponse)
    (details_exec_of : String → Except String VideosResponse)
    (parse_duration : String → Nat) (query_type : Nat) :
    (resp.items.length ≤ query_type →
      slider (Except.ok resp) details_exec_of parse_duration query_type = Except.ok none) ∧
    (query_type < resp.items.length →
      slider (Except.ok resp) details_exec_of parse_duration query_type =
        details parse_duration
          (details_exec_of ((resp.items.getD query_type ⟨""⟩).videoId))
          ((resp.items.getD query_type ⟨""⟩).videoId) true) := by
  constructor
  · intro h
    simp only [slider]
    rw [if_pos]
    simp [h]
  · intro h
    simp only [slider]
    rw [if_neg]
    intro hcond
    rw [Bool.or_eq_true] at hcond
    cases hcond with
    | inl h0 =>
      rw [List.isEmpty_iff] at h0
      rw [h0] at h
      simp at h
    | inr h0 =>
      rw [decide_eq_true_eq] at h0
      omega

/-- Witness for slider_spec: a one-element result list, index 0 in range and
index 1 out of range. -/
theorem slider_spec_witness :
    slider (Except.ok ⟨[⟨"vidA"⟩]⟩) (fun _ => Except.ok ⟨[]⟩) (fun _ => 0) 0 =
      details (fun _ => 0) (Except.ok ⟨[]⟩) "vidA" true ∧
    slider (Except.ok ⟨[⟨"vidA"⟩]⟩) (fun _ => Except.ok ⟨[]⟩) (fun _ => 0) 1 =
      Except.ok none := by
  constructor
  · exact (slider_spec ⟨[⟨"vidA"⟩]⟩ (fun _ => Except.ok ⟨[]⟩) (fun _ => 0) 0).2 (by decide)
  · exact (slider_spec ⟨[⟨"vidA"⟩]⟩ (fun _ => Except.ok ⟨[]⟩) (fun _ => 0) 1).1 (by decide)

/-- C8: the stream-url extraction returns (1, first stdout line) exactly when
stdout is non-empty and (0, stderr text) exactly when stdout is empty; no
other result shape occurs. -/
theorem video_result_spec (stdout_s stderr_s : List Char) :
    (stdout_s ≠ [] →
      video stdout_s stderr_s = (1, stdout_s.takeWhile (fun c => c != '\n'))) ∧
    (stdout_s = [] → video stdout_s stderr_s = (0, stderr_s)) ∧
    ((video stdout_s stderr_s).1 = 1 ∨ (video stdout_s stderr_s).1 = 0) := by
  refine ⟨?_, ?_, ?_⟩
  · intro h
    unfold video
    rw [if_pos h, headD_pySplit_single]
  · intro h
    simp [video, h]
  · unfold video
    by_cases h : stdout_s = []
    · rw [if_neg (by simp [h])]
      exact Or.inr rfl
    · rw [if_pos (by simp [h])]
      exact Or.inl rfl

/-- Witness for video_result_spec: a two-line stdout and an empty stdout. -/
theorem video_result_spec_witness :
    video ("http://cdn/a\nextra".data) [] = (1, "http://cdn/a".data) ∧
    video [] ("ERROR: unavailable".data) = (0, "ERROR: unavailable".data) := by
  constructor
  · have h := (video_result_spec ("http://cdn/a\nextra".data) []).1 (by decide)
    rw [h]
    decide
  · exact (video_result_spec [] ("ERROR: unavailable".data)).2.1 rfl

/-- C9: when the target path downloads/id.ext already exists the download
step is skipped and the existing path returned, and a second call right
after a first one returns the same path without running a second external
download and without changing the filesystem. -/
theorem download_idempotent_spec (extract_info : String → DlInfo) (video_flag : Bool)
    (link : String) (fs : FileSystem) :
    (dl_path (extract_info link) ∈ fs.files →
      download extract_info video_flag link fs =
        ((dl_path (extract_info link), true), fs, false)) ∧
    ((download extract_info video_flag link
        (download extract_info video_flag link fs).2.1).1.1 =
      (download extract_info video_flag link fs).1.1 ∧
     (download extract_info video_flag link
        (download extract_info video_flag link fs).2.1).2.2 = false ∧
     (download extract_info video_flag link
        (download extract_info video_flag link fs).2.1).2.1 =
      (download extract_info video_flag link fs).2.1) := by
  have ha : ∀ fs2 : FileSystem, audio_dl extract_info link fs2 =
      if dl_path (extract_info link) ∈ fs2.files
      then (dl_path (extract_info link), fs2, false)
      else (dl_path (extract_info link), ⟨dl_path (extract_info link) :: fs2.files⟩, true) :=
    fun _ => rfl
  have hv : ∀ fs2 : FileSystem, video_dl extract_info link fs2 =
      if dl_path (extract_info link) ∈ fs2.files
      then (dl_path (extract_info link), fs2, false)
      else (dl_path (extract_info link), ⟨dl_path (extract_info link) :: fs2.files⟩, true) :=
    fun _ => rfl
  cases video_flag with
  | false =>
    have hd : ∀ fs2 : FileSystem, download extract_info false link fs2 =
        (((audio_dl extract_info link fs2).1, true), (audio_dl extract_info link fs2).2.1,
          (audio_dl extract_info link fs2).2.2) := fun _ => rfl
    constructor
    · intro h
      rw [hd, ha, if_pos h]
    · by_cases h : dl_path (extract_info link) ∈ fs.files
      · simp [hd, ha, h]
      · simp [hd, ha, h]
  | true =>
    have hd : ∀ fs2 : FileSystem, download extract_info true link fs2 =
        (((video_dl extract_info link fs2).1, true), (video_dl extract_info link fs2).2.1,
          (video_dl extract_info link fs2).2.2) := fun _ => rfl
    constructor
    · intro h
      rw [hd, hv, if_pos h]
    · by_cases h : dl_path (extract_info link) ∈ fs.files
      · simp [hd, hv, h]
      · simp [hd, hv, h]

/-- Witness for download_idempotent_spec: the target file is already in the
downloads directory. -/
theorem download_idempotent_spec_witness :
    download (fun _ => ⟨"dQw4w9WgXcQ", "mp3"⟩) false "L" ⟨["downloads/dQw4w9WgXcQ.mp3"]⟩ =
      (("downloads/dQw4w9WgXcQ.mp3", true), ⟨["downloads/dQw4w9WgXcQ.mp3"]⟩, false) :=
  (download_idempotent_spec (fun _ => ⟨"dQw4w9WgXcQ", "mp3"⟩) false "L"
    ⟨["downloads/dQw4w9WgXcQ.mp3"]⟩).1 (by decide)

/-- C10: with the videoid flag set, exists always returns true: the watch
base url prepended before the regex test itself contains youtube.com, so the
host test is vacuous. -/
theorem exists_videoid_spec (s : List Char) : yt_exists s true = true := by
  unfold yt_exists host_regex_search
  have h1 : base_url = "https://www.".data ++ ("youtube.com".data ++ "/watch?v=".data) := by
    decide
  have h2 : (if true then base_url ++ s else s) = base_url ++ s := rfl
  rw [h2, h1, List.append_assoc]
  have h3 : (findSub ("youtube.com".data)
      ("https://www.".data ++ ("youtube.com".data ++ ("/watch?v=".data ++ s)))).isSome := by
    apply findSub_isSome_append_left
    exact findSub_isSome_self_append _ _ (by decide)
  rw [List.append_assoc]
  rw [Bool.or_eq_true]
  exact Or.inl h3

/-- C7 amended: when list= occurs, the playlist id is the substring after the
first list= marker, cut at the next occurrence of list= (or the end of the
string) because str.split also splits there, and then truncated at the first
ampersand of that segment; when list= is absent the whole input is used. -/
theorem playlist_id_spec_amended (link : List Char) :
    (findSub list_marker link = none → playlist_id_of link = link) ∧
    (∀ k, findSub list_marker link = some k →
      playlist_id_of link =
        ((link.drop (k + list_marker.length)).take
          ((findSub list_marker (link.drop (k + list_marker.length))).getD
            (link.drop (k + list_marker.length)).length)).takeWhile (fun c => c != '&')) := by
  constructor
  · intro h
    simp [playlist_id_of, h]
  · intro k hk
    have hne : link ≠ [] := by
      intro h0
      rw [h0] at hk
      have hnone : findSub list_marker ([] : List Char) = none := by decide
      rw [hnone] at hk
      cases hk
    obtain ⟨n, hn⟩ : ∃ n, link.length = n + 1 := by
      cases hl : link.length with
      | zero => exact absurd (List.length_eq_zero.mp hl) hne
      | succ m => exact ⟨m, rfl⟩
    have hsecond : (pySplit list_marker link).getD 1 [] =
        (link.drop (k + list_marker.length)).take
          ((findSub list_marker (link.drop (k + list_marker.length))).getD
            (link.drop (k + list_marker.length)).length) := by
      unfold pySplit
      rw [hn]
      simp only [pySplitFuel, hk]
      rw [List.getD_cons_succ]
      cases hf : findSub list_marker (link.drop (k + list_marker.length)) with
      | none =>
        simp only [hf]
        simp [List.take_length]
      | some j =>
        simp only [hf]
        simp
    unfold playlist_id_of
    rw [if_pos (by rw [hk]; rfl)]
    rw [hsecond, headD_pySplit_single]

/-- C7 counterexample: on an input with a second list= marker before the
ampersand, the code cuts at the second marker while the claim asks for the
whole segment up to the ampersand. -/
theorem playlist_id_claim_counterexample :
    playlist_id_of ("list=aaalist=bbb&c".data) = "aaa".data ∧
    c7_claim_extract ("list=aaalist=bbb&c".data) = "aaalist=bbb".data ∧
    ("aaa".data : List Char) ≠ "aaalist=bbb".data :=
  ⟨by decide, by decide, by decide⟩

/-- Witness for playlist_id_spec_amended at a regular playlist link. -/
theorem playlist_id_spec_amended_witness :
    playlist_id_of ("https://youtube.com/playlist?list=PL123&feature=share".data) =
      "PL123".data := by
  have h := (playlist_id_spec_amended
    ("https://youtube.com/playlist?list=PL123&feature=share".data)).2 29 (by decide)
  rw [h]
  decide

theorem url_loop_skip (m : MsgCore) (rest : List MsgCore)
    (text : Option String) (offset len : Option Nat)
    (hC : msgContributesNothing m) (hoff : offsetTruthy offset = false) :
    url_loop (m :: rest) text offset len = url_loop rest text offset len := by
  rw [url_loop, if_neg (by simp [hoff])]
  cases hT : entitiesTruthy m.entities with
  | true =>
    rw [if_pos rfl, hC.1 hT]
  | false =>
    rw [if_neg (by simp)]
    cases hCT : entitiesTruthy m.caption_entities with
    | true => rw [if_pos rfl, hC.2 hT hCT]
    | false => rw [if_neg (by simp)]

theorem url_loop_record (m : MsgCore) (rest : List MsgCore)
    (text : Option String) (offset len : Option Nat) (e : MessageEntity)
    (hoff : offsetTruthy offset = false)
    (hT : entitiesTruthy m.entities = true)
    (hF : firstURL (m.entities.getD []) = some e) :
    url_loop (m :: rest) text offset len =
      url_loop rest (pyOrStr m.text m.caption) (some e.offset) (some e.length) := by
  rw [url_loop, if_neg (by simp [hoff]), if_pos hT, hF]

theorem url_loop_textlink (m : MsgCore) (rest : List MsgCore)
    (text : Option String) (offset len : Option Nat) (e : MessageEntity)
    (hoff : offsetTruthy offset = false)
    (hT : entitiesTruthy m.entities = false)
    (hCT : entitiesTruthy m.caption_entities = true)
    (hF : firstTextLink (m.caption_entities.getD []) = some e) :
    url_loop (m :: rest) text offset len = .early e.url := by
  rw [url_loop, if_neg (by simp [hoff]), if_neg (by simp [hT]), if_pos hCT, hF]

theorem url_loop_break (m : MsgCore) (rest : List MsgCore)
    (text : Option String) (offset len : Option Nat)
    (hoff : offsetTruthy offset = true) :
    url_loop (m :: rest) text offset len = .fall text offset len := by
  rw [url_loop, if_pos hoff]

/-- C5 amended: the loop over the message and its reply parent stops early
only when the recorded offset is nonzero, so (1) a current-message URL entity
with nonzero offset yields its covered substring; (2) with a falsy entity
list and a TEXT_LINK caption entity, the embedded url is returned; (3) when
the current message contributes nothing, the reply parent URL entity yields
its covered substring; (4) a current-message URL entity at offset 0 is
overridden by a reply-parent URL entity; (5) with no qualifying entity in
either message the result is None. -/
theorem url_spec_amended (m : Msg) :
    (∀ e t, entitiesTruthy m.core.entities = true →
      firstURL (m.core.entities.getD []) = some e →
      e.offset ≠ 0 →
      pyOrStr m.core.text m.core.caption = some t →
      url m = Except.ok (some (pySlice t e.offset e.length))) ∧
    (∀ e, entitiesTruthy m.core.entities = false →
      entitiesTruthy m.core.caption_entities = true →
      firstTextLink (m.core.caption_entities.getD []) = some e →
      url m = Except.ok e.url) ∧
    (∀ r e t, m.reply_to_message = some r →
      msgContributesNothing m.core →
      entitiesTruthy r.entities = true →
      firstURL (r.entities.getD []) = some e →
      pyOrStr r.text r.caption = some t →
      url m = Except.ok (some (pySlice t e.offset e.length))) ∧
    (∀ e r e2 t2, entitiesTruthy m.core.entities = true →
      firstURL (m.core.entities.getD []) = some e →
      e.offset = 0 →
      m.reply_to_message = some r →
      entitiesTruthy r.entities = true →
      firstURL (r.entities.getD []) = some e2 →
      pyOrStr r.text r.caption = some t2 →
      url m = Except.ok (some (pySlice t2 e2.offset e2.length))) ∧
    (msgContributesNothing m.core →
      (∀ r, m.reply_to_message = some r → msgContributesNothing r) →
      url m = Except.ok none) := by
  obtain ⟨core, reply⟩ := m
  refine ⟨?_, ?_, ?_, ?_, ?_⟩
  · intro e t hT hF hO hP
    have hOT : offsetTruthy (some e.offset) = true := by
      obtain ⟨p, hp⟩ := Nat.exists_eq_succ_of_ne_zero hO
      rw [hp]
      rfl
    cases reply with
    | none =>
      show urlFinish (url_loop [core] (some "") none none) = _
      rw [url_loop_record core [] (some "") none none e rfl hT hF, hP]
      rfl
    | some r =>
      show urlFinish (url_loop [core, r] (some "") none none) = _
      rw [url_loop_record core [r] (some "") none none e rfl hT hF, hP,
        url_loop_break r [] (some t) (some e.offset) (some e.length) hOT]
      rfl
  · intro e hT hCT hF
    cases reply with
    | none =>
      show urlFinish (url_loop [core] (some "") none none) = _
      rw [url_loop_textlink core [] (some "") none none e rfl hT hCT hF]
      rfl
    | some r =>
      show urlFinish (url_loop [core, r] (some "") none none) = _
      rw [url_loop_textlink core [r] (some "") none none e rfl hT hCT hF]
      rfl
  · intro r e t hr hC hT hF hP
    have hr2 : reply = some r := hr
    subst hr2
    show urlFinish (url_loop [core, r] (some "") none none) = _
    rw [url_loop_skip core [r] (some "") none none hC rfl,
      url_loop_record r [] (some "") none none e rfl hT hF, hP]
    rfl
  · intro e r e2 t2 hT hF hO hr hT2 hF2 hP2
    have hr2 : reply = some r := hr
    subst hr2
    show urlFinish (url_loop [core, r] (some "") none none) = _
    rw [url_loop_record core [r] (some "") none none e rfl hT hF, hO,
      url_loop_record r [] (pyOrStr core.text core.caption) (some 0) (some e.length)
        e2 rfl hT2 hF2, hP2]
    rfl
  · intro hC hCr
    cases reply with
    | none =>
      show urlFinish (url_loop [core] (some "") none none) = _
      rw [url_loop_skip core [] (some "") none none hC rfl]
      rfl
    | some r =>
      show urlFinish (url_loop [core, r] (some "") none none) = _
      rw [url_loop_skip core [r] (some "") none none hC rfl,
        url_loop_skip r [] (some "") none none (hCr r rfl) rfl]
      rfl

/-- C5 counterexample: the current message holds a URL entity at offset 0
covering HELLO, yet with a reply parent holding another URL entity the
function returns the reply substring BBBBB, because the Python loop guard
treats the recorded offset 0 as falsy and keeps scanning. -/
theorem url_claim_counterexample :
    url ⟨⟨some "HELLOworld", none, some [⟨EntityType.URL, 0, 5, none⟩], none⟩,
        some ⟨some "aaaaaBBBBB", none, some [⟨EntityType.URL, 5, 5, none⟩], none⟩⟩ =
      Except.ok (some "BBBBB") ∧
    firstURL [⟨EntityType.URL, 0, 5, none⟩] = some ⟨EntityType.URL, 0, 5, none⟩ ∧
    pySlice "HELLOworld" 0 5 = "HELLO" ∧
    ("BBBBB" : String) ≠ "HELLO" :=
  ⟨rfl, rfl, rfl, by decide⟩

/-- Witness for url_spec_amended: clause 1 on a message whose URL entity
starts at offset 4, and clause 5 on a bare text message. -/
theorem url_spec_amended_witness :
    url ⟨⟨some "see https://youtu.be/x", none,
        some [⟨EntityType.URL, 4, 18, none⟩], none⟩, none⟩ =
      Except.ok (some "https://youtu.be/x") ∧
    url ⟨⟨some "hello", none, none, none⟩, none⟩ = Except.ok none := by
  constructor
  · have h := (url_spec_amended ⟨⟨some "see https://youtu.be/x", none,
        some [⟨EntityType.URL, 4, 18, none⟩], none⟩, none⟩).1
      ⟨EntityType.URL, 4, 18, none⟩ "see https://youtu.be/x" rfl rfl (by decide) rfl
    rw [h]
    rfl
  · exact (url_spec_amended ⟨⟨some "hello", none, none, none⟩, none⟩).2.2.2.2
      ⟨fun _ => rfl, fun _ _ => rfl⟩
      (fun r h => by cases h)
